import Mathlib

/-!
Verification of the DBRTS transfer engine against its specification.

The Go sources are shallowly embedded: pure string/list computations are
translated directly; database effects (transactions, queries, connections)
are represented by explicit result parameters and event traces.
-/

namespace DBRTS

/-! ## Schema model (internal/schema/types.go) -/

/-- Mirrors `schema.Column`. -/
structure Column where
  name : String
  dataType : String
  isNullable : Bool
  defaultValue : Option String
  maxLength : Option Int
  position : Int
deriving DecidableEq, Repr

/-- Mirrors `schema.ForeignKey`. -/
structure ForeignKey where
  name : String
  columnName : String
  referencedTable : String
  referencedColumn : String
  referencedSchema : String
  onDelete : String
  onUpdate : String
deriving DecidableEq, Repr

/-- Mirrors `schema.Index`. -/
structure Index where
  name : String
  tableName : String
  columns : List String
  isUnique : Bool
  isPrimary : Bool
  indexType : String
deriving DecidableEq, Repr

/-- Mirrors `schema.Table`. `rowCount` is the Go `int64` field. -/
structure Table where
  name : String
  schema : String
  columns : List Column
  primaryKeys : List String
  foreignKeys : List ForeignKey
  indexes : List Index
  rowCount : Int
deriving DecidableEq, Repr

/-- Double-quote an identifier, as the Go code does with `fmt.Sprintf`. -/
def quoteIdent (s : String) : String := "\"" ++ s ++ "\""

/-! ## Schema Creator (internal/schema/creator.go)

The target transaction is modelled by `Tx`: `supportsExec` is the outcome of
the Go type assertion `tx.(interface{ Exec(string, ...interface{}) error })`,
and `exec` gives the result of executing one SQL statement. `Db` supplies the
outcomes of `Begin` and `Commit`.
-/

/-- A transaction handle as seen by the creator. -/
structure Tx where
  supportsExec : Bool
  exec : String → Except String Unit

/-- Outcomes of `Begin` and `Commit` on the target connection. -/
structure Db where
  begin : Except String Tx
  commitOk : Except String Unit

/-- Column DDL fragment built inside `createTable`. -/
def columnDef (col : Column) : String :=
  let base :=
    match col.maxLength with
    | some n =>
        if col.dataType = "character varying" ∨ col.dataType = "varchar" then
          quoteIdent col.name ++ " " ++ col.dataType ++ "(" ++ toString n ++ ")"
        else
          quoteIdent col.name ++ " " ++ col.dataType
    | none => quoteIdent col.name ++ " " ++ col.dataType
  let base := if col.isNullable then base else base ++ " NOT NULL"
  match col.defaultValue with
  | some d => base ++ " DEFAULT " ++ d
  | none => base

/-- The `CREATE TABLE IF NOT EXISTS` statement built by `createTable`. -/
def createTableSQL (table : Table) : String :=
  let columnDefs := table.columns.map columnDef
  let columnDefs :=
    if table.primaryKeys.length > 0 then
      columnDefs ++
        ["PRIMARY KEY (" ++
          String.intercalate ", " (table.primaryKeys.map quoteIdent) ++ ")"]
    else columnDefs
  "CREATE TABLE IF NOT EXISTS " ++ quoteIdent table.schema ++ "." ++
    quoteIdent table.name ++ " (" ++ String.intercalate ", " columnDefs ++ ")"

/-- Mirrors `Creator.createTable`: executes the DDL, or fails when the
transaction does not support `Exec`. -/
def createTable (tx : Tx) (table : Table) : Except String Unit :=
  if tx.supportsExec then tx.exec (createTableSQL table)
  else Except.error "transaction does not support Exec"

/-- The `CREATE INDEX` statement built by `createIndexes` for one index. -/
def indexSQL (table : Table) (idx : Index) : String :=
  let uniqueStr := if idx.isUnique then "UNIQUE " else ""
  "CREATE " ++ uniqueStr ++ "INDEX IF NOT EXISTS " ++ quoteIdent idx.name ++
    " ON " ++ quoteIdent table.schema ++ "." ++ quoteIdent table.name ++
    " USING " ++ idx.indexType ++ " (" ++
    String.intercalate ", " (idx.columns.map quoteIdent) ++ ")"

/-- Mirrors `Creator.createIndexes`: primary indexes are skipped, an `Exec`
failure is only recorded as a warning, and the function returns `nil`
unconditionally at the end. The second component collects the warnings. -/
def createIndexes (tx : Tx) (table : Table) : Except String Unit × List String :=
  (Except.ok (),
    table.indexes.foldl
      (fun ws idx =>
        if idx.isPrimary then ws
        else if tx.supportsExec then
          match tx.exec (indexSQL table idx) with
          | Except.ok _ => ws
          | Except.error e =>
              ws ++ ["Failed to create index " ++ idx.name ++ ": " ++ e]
        else ws)
      [])

/-- The `ALTER TABLE ... ADD CONSTRAINT ... FOREIGN KEY` statement built by
`createForeignKeys` for one foreign key. -/
def fkSQL (table : Table) (fk : ForeignKey) : String :=
  let base :=
    "ALTER TABLE " ++ quoteIdent table.schema ++ "." ++ quoteIdent table.name ++
      " ADD CONSTRAINT " ++ quoteIdent fk.name ++ " FOREIGN KEY (" ++
      quoteIdent fk.columnName ++ ") REFERENCES " ++
      quoteIdent fk.referencedSchema ++ "." ++ quoteIdent fk.referencedTable ++
      " (" ++ quoteIdent fk.referencedColumn ++ ")"
  let base :=
    if fk.onDelete ≠ "" ∧ fk.onDelete ≠ "NO ACTION" then
      base ++ " ON DELETE " ++ fk.onDelete
    else base
  if fk.onUpdate ≠ "" ∧ fk.onUpdate ≠ "NO ACTION" then
    base ++ " ON UPDATE " ++ fk.onUpdate
  else base

/-- Mirrors `Creator.createForeignKeys`: an `Exec` failure is only recorded as
a warning, and the function returns `nil` unconditionally at the end. -/
def createForeignKeys (tx : Tx) (table : Table) : Except String Unit × List String :=
  (Except.ok (),
    table.foreignKeys.foldl
      (fun ws fk =>
        if tx.supportsExec then
          match tx.exec (fkSQL table fk) with
          | Except.ok _ => ws
          | Except.error e =>
              ws ++ ["Failed to create foreign key " ++ fk.name ++ ": " ++ e]
        else ws)
      [])

/-- Pass (1) of `CreateTables`: `createTable` for every table, wrapping the
first failure. -/
def tablePass (tx : Tx) : List Table → Except String Unit
  | [] => Except.ok ()
  | t :: rest =>
    match createTable tx t with
    | Except.error e =>
        Except.error ("failed to create table " ++ t.schema ++ "." ++ t.name ++ ": " ++ e)
    | Except.ok _ => tablePass tx rest

/-- Pass (2) of `CreateTables`: `createIndexes` for every table. The error
branch mirrors the Go `if err != nil` check, although `createIndexes` never
returns a non-nil error. -/
def indexPass (tx : Tx) : List Table → Except String (List String)
  | [] => Except.ok []
  | t :: rest =>
    match createIndexes tx t with
    | (Except.error e, _) =>
        Except.error ("failed to create indexes for " ++ t.schema ++ "." ++ t.name ++ ": " ++ e)
    | (Except.ok _, ws) =>
      match indexPass tx rest with
      | Except.error e => Except.error e
      | Except.ok ws2 => Except.ok (ws ++ ws2)

/-- Pass (3) of `CreateTables`: `createForeignKeys` for every table. The error
branch mirrors the Go `if err != nil` check, although `createForeignKeys`
never returns a non-nil error. -/
def fkPass (tx : Tx) : List Table → Except String (List String)
  | [] => Except.ok []
  | t :: rest =>
    match createForeignKeys tx t with
    | (Except.error e, _) =>
        Except.error ("failed to create foreign keys for " ++ t.schema ++ "." ++ t.name ++ ": " ++ e)
    | (Except.ok _, ws) =>
      match fkPass tx rest with
      | Except.error e => Except.error e
      | Except.ok ws2 => Except.ok (ws ++ ws2)

/-- Result of `Creator.CreateTables`: the returned error value, the warnings
logged along the way, and whether the transaction was committed. -/
structure CreateResult where
  result : Except String Unit
  warnings : List String
  committed : Bool
deriving Repr

/-- Mirrors `Creator.CreateTables`: begin one transaction, run the three
passes in order, commit at the end; any pass returning an error aborts (the
deferred rollback then discards the transaction, `committed = false`). -/
def CreateTables (db : Db) (tables : List Table) : CreateResult :=
  match db.begin with
  | Except.error e =>
      { result := Except.error ("failed to begin transaction: " ++ e),
        warnings := [], committed := false }
  | Except.ok tx =>
    match tablePass tx tables with
    | Except.error e => { result := Except.error e, warnings := [], committed := false }
    | Except.ok _ =>
      match indexPass tx tables with
      | Except.error e => { result := Except.error e, warnings := [], committed := false }
      | Except.ok ws2 =>
        match fkPass tx tables with
        | Except.error e =>
            { result := Except.error e, warnings := ws2, committed := false }
        | Except.ok ws3 =>
          match db.commitOk with
          | Except.error e =>
              { result := Except.error ("failed to commit transaction: " ++ e),
                warnings := ws2 ++ ws3, committed := false }
          | Except.ok _ =>
              { result := Except.ok (), warnings := ws2 ++ ws3, committed := true }

/-! ## Worker pool and batch copy job (internal/transfer/worker.go)

`WorkerPool` keeps the channel of pending jobs as its current length plus its
capacity (`make(chan Job, workers*2)`). `SubmitJob` selects between sending on
that channel and the cancellation signal; on a successful send it immediately
calls `job.Execute()` in the submitting goroutine and returns its result.
-/

/-- Mirrors `transfer.WorkerPool`; `jobsLen` is the number of jobs currently
buffered in the `jobs` channel (nothing ever receives from it). -/
structure WorkerPool where
  workers : Nat
  batchSize : Nat
  jobsCap : Nat
  jobsLen : Nat
deriving DecidableEq, Repr

/-- Mirrors `NewWorkerPool`: the intake channel has capacity `workers*2`. -/
def NewWorkerPool (workers batchSize : Nat) : WorkerPool :=
  { workers := workers, batchSize := batchSize,
    jobsCap := workers * 2, jobsLen := 0 }

/-- Outcome of one `SubmitJob` call. `ran r` means the send succeeded and the
job was executed synchronously in the submitting goroutine, returning `r`;
`canceled` is the `ctx.Done()` branch; `blocked` means neither select branch
is ready and the caller stays blocked. -/
inductive SubmitOutcome (α : Type) where
  | ran (result : α)
  | canceled
  | blocked
deriving DecidableEq, Repr

/-- Mirrors `WorkerPool.SubmitJob`. `jobResult` is the value `job.Execute()`
would return; `preferSend` resolves the nondeterministic select when both the
send and the cancellation are ready. -/
def SubmitJob (wp : WorkerPool) (ctxCanceled : Bool) (preferSend : Bool)
    (jobResult : α) : SubmitOutcome α × WorkerPool :=
  if wp.jobsLen < wp.jobsCap ∧ (¬ ctxCanceled = true ∨ preferSend = true) then
    (SubmitOutcome.ran jobResult, { wp with jobsLen := wp.jobsLen + 1 })
  else if ctxCanceled then (SubmitOutcome.canceled, wp)
  else (SubmitOutcome.blocked, wp)

/-- Mirrors `transfer.DataTransferJob` (the fields the copy loop reads). -/
structure DataTransferJob where
  table : Table
  batchSize : Int
deriving Repr

/-- The `limit` computed at the top of each iteration of
`DataTransferJob.Execute`. -/
def pageLimit (rowCount batchSize offset : Int) : Int :=
  if offset + batchSize > rowCount then rowCount - offset else batchSize

/-- The offset loop of `DataTransferJob.Execute`. `batchOk offset limit` tells
whether `transferBatch(offset, limit)` succeeds. The result is the list of
progress increments reported (`ProgressBar.IncrementBy(limit)`) and `true` on
success / `false` when a batch failed; `none` means the loop did not finish
within `fuel` iterations. -/
def executeLoop (batchOk : Int → Int → Bool) (rowCount batchSize offset : Int) :
    Nat → Option (List Int × Bool)
  | 0 => if offset < rowCount then none else some ([], true)
  | Nat.succ fuel =>
    if offset < rowCount then
      let limit := pageLimit rowCount batchSize offset
      if batchOk offset limit then
        match executeLoop batchOk rowCount batchSize (offset + limit) fuel with
        | none => none
        | some (incs, ok) => some (limit :: incs, ok)
      else some ([], false)
    else some ([], true)

/-- Mirrors `DataTransferJob.Execute`: run the offset loop from 0 over the
captured row count of the table. -/
def DataTransferJob.execute (job : DataTransferJob) (batchOk : Int → Int → Bool)
    (fuel : Nat) : Option (List Int × Bool) :=
  executeLoop batchOk job.table.rowCount job.batchSize 0 fuel

/-- Mirrors `DataTransferJob.buildOrderByClause`. -/
def buildOrderByClause (t : Table) : String :=
  if t.primaryKeys.length > 0 then
    String.intercalate ", " (t.primaryKeys.map quoteIdent)
  else
    match t.columns with
    | c :: _ => quoteIdent c.name
    | [] => "1"

/-- Mirrors `DataTransferJob.buildSelectQuery`. -/
def buildSelectQuery (t : Table) (offset limit : Int) : String :=
  "SELECT " ++ String.intercalate ", " (t.columns.map (fun c => quoteIdent c.name)) ++
    " FROM " ++ quoteIdent t.schema ++ "." ++ quoteIdent t.name ++
    " ORDER BY " ++ buildOrderByClause t ++
    " OFFSET " ++ toString offset ++ " LIMIT " ++ toString limit

/-- Written from the spec sentence for C9, independently of the code: select
all columns, order by the primary-key list when non-empty, otherwise the
first column when one exists, otherwise the constant 1, then apply OFFSET and
LIMIT. -/
def specSelectQuery (t : Table) (offset limit : Int) : String :=
  let orderBy :=
    if _h : t.primaryKeys ≠ [] then
      String.intercalate ", " (t.primaryKeys.map quoteIdent)
    else if h : t.columns ≠ [] then quoteIdent (t.columns.head h).name
    else "1"
  "SELECT " ++ String.intercalate ", " (t.columns.map (fun c => quoteIdent c.name)) ++
    " FROM " ++ quoteIdent t.schema ++ "." ++ quoteIdent t.name ++
    " ORDER BY " ++ orderBy ++
    " OFFSET " ++ toString offset ++ " LIMIT " ++ toString limit

/-! ## Configuration and transfer options (internal/config, internal/transfer/service.go) -/

/-- The part of `config.DatabaseConfig` the transfer service reads. -/
structure DatabaseConfig where
  type : String
deriving DecidableEq, Repr

/-- Mirrors `config.Config`. -/
structure Config where
  database : DatabaseConfig
deriving DecidableEq, Repr

/-- Mirrors `transfer.Options` (the logger collaborator is modelled by the
event traces below). -/
structure Options where
  schemaOnly : Bool
  dataOnly : Bool
  parallelWorkers : Int
  batchSize : Int
deriving DecidableEq, Repr

/-- Observable effects of an engine run: connection opening, log lines, and
the per-step operations of both engines. Events produced by concurrent jobs
are linearized in submission order; the theorems below only use counts and
membership of events, never their relative order across jobs. -/
inductive Event where
  | connectSource
  | connectTarget
  | info (msg : String)
  | warn (msg : String)
  | errorLog (msg : String)
  | extractTables (callIdx : Nat)
  | createTables (tables : List Table)
  | submitJob (tableName : String)
  | dropCollection (name : String)
  | listIndexes (name : String)
  | createIndexes (name : String)
  | insertDocuments (name : String) (count : Nat)
deriving DecidableEq, Repr

/-- Engines as constructed by `NewService`: plain values holding the two
configs and the options, exactly as `newPostgresEngine` / `newMongoEngine`
build them (neither opens a connection). -/
inductive Engine where
  | postgresEngine (sourceConfig targetConfig : Config) (options : Options)
  | mongoEngine (sourceConfig targetConfig : Config) (options : Options)
deriving DecidableEq, Repr

/-- Mirrors `newPostgresEngine`: stores the configs and options. -/
def newPostgresEngine (sourceConfig targetConfig : Config) (options : Options) : Engine :=
  Engine.postgresEngine sourceConfig targetConfig options

/-- Mirrors `newMongoEngine`: stores the configs and options; its error
return is always nil in the source. -/
def newMongoEngine (sourceConfig targetConfig : Config) (options : Options) :
    Except String Engine :=
  Except.ok (Engine.mongoEngine sourceConfig targetConfig options)

/-- Mirrors `transfer.NewService`. The second component is the trace of
connection events produced while constructing the service: the Go function
only compares the two type strings and allocates an engine value, so the
trace is empty on every path. -/
def NewService (sourceConfig targetConfig : Config) (options : Options) :
    Except String Engine × List Event :=
  let sourceType := sourceConfig.database.type
  let targetType := targetConfig.database.type
  if sourceType ≠ targetType then
    (Except.error ("cross-engine transfers are not supported between " ++
      sourceType ++ " and " ++ targetType), [])
  else if sourceType = "postgres" then
    (Except.ok (newPostgresEngine sourceConfig targetConfig options), [])
  else if sourceType = "mongo" then
    match newMongoEngine sourceConfig targetConfig options with
    | Except.error e => (Except.error e, [])
    | Except.ok engine => (Except.ok engine, [])
  else
    (Except.error ("unsupported database type: " ++ sourceType), [])

/-! ## PostgreSQL engine orchestration (src/tests/basic_test.go, transfer engine part)

`PgWorld` supplies the outcomes of the external calls of the engine: opening the
two connections, the result of the n-th `ExtractTables` call (the extractor
may observe a different schema on each call), the result of
`CreateTables`, and whether the batch job for a table succeeds.
-/

/-- External-world outcomes for one `postgresEngine` run. -/
structure PgWorld where
  connectSource : Except String Unit
  connectTarget : Except String Unit
  extract : Nat → Except String (List Table)
  createTables : List Table → Except String Unit
  jobOk : Table → Bool

/-- Mirrors `postgresEngine.connect`: open the source connection, then the
target connection. -/
def pgConnect (w : PgWorld) : Except String Unit × List Event :=
  match w.connectSource with
  | Except.error e =>
      (Except.error ("source database connection: " ++ e), [Event.connectSource])
  | Except.ok _ =>
    match w.connectTarget with
    | Except.error e =>
        (Except.error ("target database connection: " ++ e),
          [Event.connectSource, Event.connectTarget])
    | Except.ok _ => (Except.ok (), [Event.connectSource, Event.connectTarget])

/-- Mirrors `postgresEngine.transferSchema`: one `ExtractTables` call, then
`CreateTables` on its result. The `Nat` threads the extraction-call counter. -/
def transferSchema (w : PgWorld) (n : Nat) :
    Except String Unit × List Event × Nat :=
  match w.extract n with
  | Except.error e =>
      (Except.error ("failed to extract tables: " ++ e),
        [Event.info "Transferring schema...", Event.extractTables n], n + 1)
  | Except.ok tables =>
    match w.createTables tables with
    | Except.error e =>
        (Except.error ("failed to create tables: " ++ e),
          [Event.info "Transferring schema...", Event.extractTables n,
            Event.createTables tables], n + 1)
    | Except.ok _ =>
        (Except.ok (),
          [Event.info "Transferring schema...", Event.extractTables n,
            Event.createTables tables, Event.info "Schema transfer completed."],
          n + 1)

/-- Decidable equality of creator/engine results, for evaluating concrete
runs. -/
instance : DecidableEq (Except String Unit) := fun a b =>
  match a, b with
  | Except.ok x, Except.ok y => isTrue (by cases x; cases y; rfl)
  | Except.error e, Except.error f =>
      if h : e = f then isTrue (by rw [h]) else isFalse (by simp [h])
  | Except.ok _, Except.error _ => isFalse (by simp)
  | Except.error _, Except.ok _ => isFalse (by simp)

/-- Possible fates of an engine run. `done` is a normal return with its error
value and linearized event trace. `blocked` is a run that never returns:
nothing ever receives from the `jobs` channel and `SubmitJob` is called with
a background context, so once more jobs are submitted than the intake
capacity admits, the excess goroutines stay in the select forever and
`wg.Wait()` never finishes (no trace is recorded for such a run, since which
submissions were admitted is nondeterministic). `panicked` is the runtime
panic of `make(chan Job, workers*2)` on a negative capacity. -/
inductive PgRun where
  | done (result : Except String Unit) (events : List Event)
  | blocked
  | panicked
deriving DecidableEq, Repr

/-- The error value of a normally returning run. -/
def PgRun.doneResult : PgRun → Option (Except String Unit)
  | PgRun.done r _ => some r
  | _ => none

/-- The event trace of a normally returning run. -/
def PgRun.doneEvents : PgRun → List Event
  | PgRun.done _ evs => evs
  | _ => []

/-- Mirrors `postgresEngine.transferData`: a fresh `ExtractTables` call, then
`NewWorkerPool(ParallelWorkers, BatchSize)` and one goroutine per table with
a nonzero row count, each calling `SubmitJob` with a background context. A
job error is only logged, so when every submission is admitted by the intake
the function returns nil after the wait group finishes; with a negative
worker count the channel allocation panics, and with more jobs than the
intake capacity `workers*2` the run deadlocks in `wg.Wait`. -/
def transferData (w : PgWorld) (options : Options) (n : Nat) : PgRun × Nat :=
  match w.extract n with
  | Except.error e =>
      (PgRun.done (Except.error ("failed to extract table metadata: " ++ e))
        [Event.info "Transferring data...", Event.extractTables n], n + 1)
  | Except.ok tables =>
    if options.parallelWorkers < 0 then (PgRun.panicked, n + 1)
    else
      let wp := NewWorkerPool options.parallelWorkers.toNat options.batchSize.toNat
      let jobs := tables.filter (fun t => t.rowCount ≠ 0)
      if wp.jobsCap < jobs.length then (PgRun.blocked, n + 1)
      else
        let jobEvents := jobs.flatMap (fun t =>
          Event.submitJob t.name ::
            (if w.jobOk t then []
             else [Event.errorLog ("Table transfer failed for " ++ t.name)]))
        (PgRun.done (Except.ok ())
          (Event.info "Transferring data..." :: Event.extractTables n ::
            jobEvents ++ [Event.info "Data transfer completed."]),
          n + 1)

/-- Mirrors `postgresEngine.Execute`: connect, run the schema phase unless
data-only, then the data phase unless schema-only; a data phase that blocks
or panics keeps the whole run from returning. -/
def pgExecute (w : PgWorld) (options : Options) : PgRun :=
  match pgConnect w with
  | (Except.error e, evs) =>
      PgRun.done (Except.error ("connection error: " ++ e))
        (Event.info "Starting PostgreSQL transfer..." :: evs)
  | (Except.ok _, evs0) =>
    match (if options.dataOnly then (Except.ok (), [], 0) else transferSchema w 0) with
    | (Except.error e, evs1, _) =>
        PgRun.done (Except.error ("schema transfer failed: " ++ e))
          (Event.info "Starting PostgreSQL transfer..." :: evs0 ++ evs1)
    | (Except.ok _, evs1, n1) =>
      if options.schemaOnly then
        PgRun.done (Except.ok ())
          (Event.info "Starting PostgreSQL transfer..." :: evs0 ++ evs1 ++
            [Event.info "PostgreSQL transfer completed successfully."])
      else
        match transferData w options n1 with
        | (PgRun.done (Except.error e) evs2, _) =>
            PgRun.done (Except.error ("data transfer failed: " ++ e))
              (Event.info "Starting PostgreSQL transfer..." :: evs0 ++ evs1 ++ evs2)
        | (PgRun.done (Except.ok _) evs2, _) =>
            PgRun.done (Except.ok ())
              (Event.info "Starting PostgreSQL transfer..." :: evs0 ++ evs1 ++ evs2 ++
                [Event.info "PostgreSQL transfer completed successfully."])
        | (PgRun.blocked, _) => PgRun.blocked
        | (PgRun.panicked, _) => PgRun.panicked

/-! ## MongoDB engine (internal/transfer/mongo_engine.go)

Index documents are modelled at the wire level: `expireAfterSeconds` is
`Option Int` because a missing field and an explicit value are distinct in a
source index document, while the Go struct field `Expire int32` decodes both
a missing field and an explicit 0 to 0 (the bson zero value). The boolean
flags decode a missing field to `false`, which is semantically identical to
an explicit `false`, so they are kept as `Bool`.
-/

/-- A source index document as listed by `Indexes().List`. -/
structure IndexDoc where
  name : String
  key : List (String × Int)
  unique : Bool
  sparse : Bool
  expireAfterSeconds : Option Int
deriving DecidableEq, Repr

/-- A `mongo.IndexModel` to be created on the target: `Option` fields are the
builder options that `cloneIndexes` sets conditionally; the name is always
set. -/
structure IndexModel where
  name : String
  keys : List (String × Int)
  unique : Option Bool
  sparse : Option Bool
  expireAfterSeconds : Option Int
deriving DecidableEq, Repr

/-- One iteration of the decode-and-build loop in `cloneIndexes`: the options
builder sets the name, then `unique` / `sparse` only when true, and
`expireAfterSeconds` only when the decoded `int32` value is nonzero. -/
def toIndexModel (d : IndexDoc) : IndexModel :=
  let expire := d.expireAfterSeconds.getD 0
  { name := d.name, keys := d.key,
    unique := if d.unique then some true else none,
    sparse := if d.sparse then some true else none,
    expireAfterSeconds := if expire ≠ 0 then some expire else none }

/-- The list of index models accumulated by `cloneIndexes`: every listed
source index in order, except any named `_id_` (the `continue` branch). -/
def cloneIndexModels : List IndexDoc → List IndexModel
  | [] => []
  | d :: rest =>
    if d.name = "_id_" then cloneIndexModels rest
    else toIndexModel d :: cloneIndexModels rest

/-- Documents are opaque in the model; only their grouping into insert
batches matters. -/
abbrev Document := Nat

/-- External-world outcomes for one `mongoEngine.transfer` run. `drop` is the
result of dropping a target collection with the `namespace not found` code
already treated as success; `listIndexes` and `find` give, per collection, the
source indexes and documents; `createMany` and `insertMany` are the target
write outcomes. -/
structure MongoWorld where
  listCollections : Except String (List String)
  drop : String → Except String Unit
  listIndexes : String → Except String (List IndexDoc)
  createMany : String → List IndexModel → Except String Unit
  find : String → Except String (List Document)
  insertMany : String → List Document → Except String Unit

/-- Mirrors the cursor loop of `cloneCollection`: accumulate documents and
emit a full batch whenever the accumulator reaches `batchSize`; whatever is
left at the end is the final partial batch. -/
def batchDocs (batchSize : Nat) : List Document → List Document → List (List Document)
  | [], batch => if batch.isEmpty then [] else [batch]
  | d :: rest, batch =>
    let batch := batch ++ [d]
    if batchSize ≤ batch.length then batch :: batchDocs batchSize rest []
    else batchDocs batchSize rest batch

/-- Mirrors `mongoEngine.insertBatch`: an empty batch is a no-op, otherwise
one unordered `InsertMany`. -/
def insertBatch (w : MongoWorld) (name : String) (batch : List Document) :
    Except String Unit :=
  if batch.isEmpty then Except.ok () else w.insertMany name batch

/-- Insert the prepared batches in order, stopping at the first failure.
Batches that reached the full batch size are inserted inside the cursor loop;
a shorter batch is the final one inserted after the loop, whose error message
differs. -/
def insertBatches (w : MongoWorld) (name : String) (batchSize : Nat) :
    List (List Document) → Except String Unit × List Event
  | [] => (Except.ok (), [])
  | b :: rest =>
    match insertBatch w name b with
    | Except.error e =>
        (Except.error
          ((if batchSize ≤ b.length then "failed to insert batch into "
            else "failed to insert final batch into ") ++ name ++ ": " ++ e),
          [Event.insertDocuments name b.length])
    | Except.ok _ =>
      match insertBatches w name batchSize rest with
      | (r, evs) => (r, Event.insertDocuments name b.length :: evs)

/-- Mirrors `mongoEngine.cloneIndexes` at the effect level: list the source
indexes, build the models, and call `CreateMany` only when at least one model
was built. -/
def cloneIndexesStep (w : MongoWorld) (name : String) :
    Except String Unit × List Event :=
  match w.listIndexes name with
  | Except.error e =>
      (Except.error ("failed to list indexes: " ++ e), [Event.listIndexes name])
  | Except.ok docs =>
    let models := cloneIndexModels docs
    if models.isEmpty then (Except.ok (), [Event.listIndexes name])
    else
      match w.createMany name models with
      | Except.error e =>
          (Except.error ("failed to create indexes: " ++ e),
            [Event.listIndexes name, Event.createIndexes name])
      | Except.ok _ =>
          (Except.ok (), [Event.listIndexes name, Event.createIndexes name])

/-- Mirrors `mongoEngine.cloneCollection`: drop the target collection, clone
indexes unless data-only, then unless schema-only stream the documents in
batches of the (defaulted) batch size. -/
def cloneCollection (w : MongoWorld) (options : Options) (name : String)
    (copyIndexes copyData : Bool) : Except String Unit × List Event :=
  match w.drop name with
  | Except.error e =>
      (Except.error ("failed to drop target collection " ++ name ++ ": " ++ e),
        [Event.dropCollection name])
  | Except.ok _ =>
    match
      (if copyIndexes then
        match cloneIndexesStep w name with
        | (Except.error e, evs) =>
            (Except.error ("failed to clone indexes for " ++ name ++ ": " ++ e), evs)
        | (Except.ok _, evs) => (Except.ok (), evs)
      else (Except.ok (), [])) with
    | (Except.error e, evs) => (Except.error e, Event.dropCollection name :: evs)
    | (Except.ok _, evs1) =>
      if !copyData then (Except.ok (), Event.dropCollection name :: evs1)
      else
        let batchSize := if options.batchSize ≤ 0 then 500 else options.batchSize
        match w.find name with
        | Except.error e =>
            (Except.error ("failed to query collection " ++ name ++ ": " ++ e),
              Event.dropCollection name :: evs1)
        | Except.ok docs =>
          match insertBatches w name batchSize.toNat (batchDocs batchSize.toNat docs []) with
          | (Except.error e, evs2) =>
              (Except.error e, Event.dropCollection name :: evs1 ++ evs2)
          | (Except.ok _, evs2) =>
              (Except.ok (), Event.dropCollection name :: evs1 ++ evs2)

/-- The per-collection loop of `mongoEngine.transfer`: clone each collection
in order, aborting the whole run on the first failure. -/
def cloneAll (w : MongoWorld) (options : Options) (copyIndexes copyData : Bool) :
    List String → Except String Unit × List Event
  | [] => (Except.ok (), [])
  | name :: rest =>
    match cloneCollection w options name copyIndexes copyData with
    | (Except.error e, evs) =>
        (Except.error e, Event.info ("Transferring collection " ++ name ++ "...") :: evs)
    | (Except.ok _, evs) =>
      match cloneAll w options copyIndexes copyData rest with
      | (r, evs2) =>
          (r, Event.info ("Transferring collection " ++ name ++ "...") :: evs ++ evs2)

/-- Mirrors `mongoEngine.transfer`: require both database names, list the
source collections, and either warn and stop when both flags disable all
work, or clone every collection. -/
def mongoTransfer (w : MongoWorld) (sourceDBName targetDBName : String)
    (options : Options) : Except String Unit × List Event :=
  if sourceDBName = "" ∨ targetDBName = "" then
    (Except.error "source and target database names are required for MongoDB transfer", [])
  else
    match w.listCollections with
    | Except.error e => (Except.error ("failed to list collections: " ++ e), [])
    | Except.ok collections =>
      let copyIndexes := !options.dataOnly
      let copyData := !options.schemaOnly
      if !copyIndexes && !copyData then
        (Except.ok (),
          [Event.warn "Both schema-only and data-only flags are set to skip operations; nothing to do."])
      else cloneAll w options copyIndexes copyData collections

/-- Per-collection index or document operations, as opposed to run-level
events (listing collection names, connecting, logging). -/
def isPerCollectionOp : Event → Bool
  | Event.dropCollection _ => true
  | Event.listIndexes _ => true
  | Event.createIndexes _ => true
  | Event.insertDocuments _ _ => true
  | _ => false

/-! ## Concrete fixtures used by counterexamples and witnesses -/

/-- A foreign key from `orders.customer_id` to `customers.id`. -/
def fkOrders : ForeignKey :=
  { name := "orders_customer_fk", columnName := "customer_id",
    referencedTable := "customers", referencedColumn := "id",
    referencedSchema := "public", onDelete := "", onUpdate := "" }

/-- A table whose only DDL beyond its own creation is the foreign key above. -/
def ordersFkTable : Table :=
  { name := "orders", schema := "public", columns := [], primaryKeys := [],
    foreignKeys := [fkOrders], indexes := [], rowCount := 0 }

/-- A transaction on which every statement succeeds except the foreign-key
statement of `ordersFkTable`, which fails. -/
def txFkFails : Tx :=
  { supportsExec := true,
    exec := fun s =>
      if s = fkSQL ordersFkTable fkOrders then Except.error "boom"
      else Except.ok () }

/-- A target connection whose `Begin` yields `txFkFails` and whose `Commit`
succeeds. -/
def dbFkFails : Db := { begin := Except.ok txFkFails, commitOk := Except.ok () }

/-! ## C1 -/

/-- C1 counterexample: on a concrete run where the single foreign-key
statement of pass (3) fails (`exec` returns an error on it), `CreateTables`
nevertheless returns success, commits the transaction, and merely records a
warning — refuting the claim that a pass-(3) failure is fatal and that
`CreateTables` returns an error. -/
theorem c1_counterexample :
    txFkFails.exec (fkSQL ordersFkTable fkOrders) = Except.error "boom" ∧
    (CreateTables dbFkFails [ordersFkTable]).result = Except.ok () ∧
    (CreateTables dbFkFails [ordersFkTable]).committed = true ∧
    (CreateTables dbFkFails [ordersFkTable]).warnings =
      ["Failed to create foreign key orders_customer_fk: boom"] := by
  refine ⟨by decide, by decide, by decide, by decide⟩

/-- C1 amended: a failure executing a foreign-key statement in pass (3) is
logged as a warning and skipped, exactly like the index pass:
`createForeignKeys` never returns an error, and whenever `Begin`, every
pass-(1) statement, and `Commit` succeed, `CreateTables` returns success and
commits regardless of any foreign-key statement failures. -/
theorem c1_fk_failure_not_fatal (db : Db) (tables : List Table) (tx : Tx)
    (hb : db.begin = Except.ok tx)
    (h1 : tablePass tx tables = Except.ok ())
    (hc : db.commitOk = Except.ok ()) :
    (∀ t : Table, (createForeignKeys tx t).1 = Except.ok ()) ∧
    (CreateTables db tables).result = Except.ok () ∧
    (CreateTables db tables).committed = true := by
  have hidx : ∀ ts : List Table, ∃ ws, indexPass tx ts = Except.ok ws := by
    intro ts
    induction ts with
    | nil => exact ⟨[], rfl⟩
    | cons t rest ih =>
      obtain ⟨ws2, h⟩ := ih
      exact ⟨(createIndexes tx t).2 ++ ws2, by simp only [indexPass, createIndexes, h]⟩
  have hfk : ∀ ts : List Table, ∃ ws, fkPass tx ts = Except.ok ws := by
    intro ts
    induction ts with
    | nil => exact ⟨[], rfl⟩
    | cons t rest ih =>
      obtain ⟨ws2, h⟩ := ih
      exact ⟨(createForeignKeys tx t).2 ++ ws2,
        by simp only [fkPass, createForeignKeys, h]⟩
  obtain ⟨ws2, h2⟩ := hidx tables
  obtain ⟨ws3, h3⟩ := hfk tables
  refine ⟨fun _ => rfl, ?_, ?_⟩ <;>
    simp only [CreateTables, hb, h1, h2, h3, hc]

/-- C1 witness: the amended theorem applied to the concrete failing-FK run. -/
theorem c1_witness :
    (∀ t : Table, (createForeignKeys txFkFails t).1 = Except.ok ()) ∧
    (CreateTables dbFkFails [ordersFkTable]).result = Except.ok () ∧
    (CreateTables dbFkFails [ordersFkTable]).committed = true :=
  c1_fk_failure_not_fatal dbFkFails [ordersFkTable] txFkFails rfl (by decide) rfl

/-! ## C2 and C10: the offset loop -/

/-- When the offset has reached the row count the loop exits at once,
whatever fuel is left. -/
theorem executeLoop_stop (batchOk : Int → Int → Bool) (R B offset : Int)
    (fuel : Nat) (h : ¬ offset < R) :
    executeLoop batchOk R B offset fuel = some ([], true) := by
  cases fuel with
  | zero => simp [executeLoop, h]
  | succ fuel => simp [executeLoop, h]

/-- Ceiling-division base case: `⌈0 / b⌉ = 0`. -/
theorem ceil_div_zero (b : Nat) (hb : 1 ≤ b) : (0 + b - 1) / b = 0 :=
  Nat.div_eq_of_lt (by omega)

/-- Ceiling-division step: consuming `min b n` of a positive remainder `n`
accounts for exactly one page. -/
theorem ceil_div_step (n b : Nat) (h1 : 1 ≤ n) (hb : 1 ≤ b) :
    (n + b - 1) / b = 1 + ((n - min b n) + b - 1) / b := by
  rcases le_or_lt b n with h | h
  · rw [show min b n = b by omega]
    rw [show n + b - 1 = ((n - b) + b - 1) + b by omega,
      Nat.add_div_right _ (by omega : 0 < b)]
    omega
  · rw [show min b n = n by omega]
    rw [show n + b - 1 = (n - 1) + b by omega,
      Nat.add_div_right _ (by omega : 0 < b),
      Nat.div_eq_of_lt (by omega : n - 1 < b)]
    rw [show n - n + b - 1 = b - 1 by omega, Nat.div_eq_of_lt (by omega : b - 1 < b)]

/-- Main loop invariant: with positive batch size, enough fuel, and every
batch succeeding, the loop finishes successfully, reports increments summing
to the remaining rows, and runs exactly `⌈remaining / B⌉` pages. -/
theorem executeLoop_spec (batchOk : Int → Int → Bool)
    (hok : ∀ o l, batchOk o l = true) (R B : Int) (hB : 0 < B) :
    ∀ (fuel : Nat) (offset : Int), 0 ≤ offset → offset ≤ R →
      (R - offset).toNat ≤ fuel →
      ∃ incs : List Int,
        executeLoop batchOk R B offset fuel = some (incs, true) ∧
        incs.sum = R - offset ∧
        incs.length = ((R - offset).toNat + B.toNat - 1) / B.toNat := by
  intro fuel
  induction fuel with
  | zero =>
    intro offset h0 hle hf
    have heq : offset = R := by omega
    refine ⟨[], executeLoop_stop _ _ _ _ _ (by omega), by simp [heq], ?_⟩
    rw [show (R - offset).toNat = 0 by omega]
    exact (ceil_div_zero B.toNat (by omega)).symm
  | succ fuel ih =>
    intro offset h0 hle hf
    by_cases hlt : offset < R
    · have hlim : 1 ≤ pageLimit R B offset := by
        unfold pageLimit; split <;> omega
      have hlim2 : pageLimit R B offset ≤ R - offset ∨ pageLimit R B offset = B := by
        unfold pageLimit; split
        · left; omega
        · right; rfl
      have hlimle : offset + pageLimit R B offset ≤ R := by
        unfold pageLimit; split <;> omega
      obtain ⟨incs, heq, hsum, hlen⟩ :=
        ih (offset + pageLimit R B offset) (by omega) hlimle (by omega)
      refine ⟨pageLimit R B offset :: incs, ?_, ?_, ?_⟩
      · show executeLoop batchOk R B offset (fuel + 1) = _
        simp only [executeLoop, if_pos hlt, hok, if_pos, heq]
      · simp only [List.sum_cons, hsum]; omega
      · simp only [List.length_cons, hlen]
        have hmin : (R - (offset + pageLimit R B offset)).toNat =
            (R - offset).toNat - min B.toNat (R - offset).toNat := by
          unfold pageLimit; split <;> omega
        rw [hmin, ceil_div_step (R - offset).toNat B.toNat (by omega) (by omega)]
        omega
    · have heq : offset = R := by omega
      refine ⟨[], executeLoop_stop _ _ _ _ _ hlt, by simp [heq], ?_⟩
      rw [show (R - offset).toNat = 0 by omega]
      exact (ceil_div_zero B.toNat (by omega)).symm

/-- C2: for a table with row count `R ≥ 0` and batch size `B > 0`, when every
batch succeeds, `DataTransferJob.execute` finishes successfully having run
exactly `⌈R / B⌉` sequential pages, and the reported progress increments sum
to exactly `R`. -/
theorem c2_pages_and_progress (job : DataTransferJob) (batchOk : Int → Int → Bool)
    (hok : ∀ o l, batchOk o l = true)
    (hR : 0 ≤ job.table.rowCount) (hB : 0 < job.batchSize)
    (fuel : Nat) (hfuel : job.table.rowCount.toNat ≤ fuel) :
    ∃ incs : List Int,
      job.execute batchOk fuel = some (incs, true) ∧
      incs.length =
        (job.table.rowCount.toNat + job.batchSize.toNat - 1) / job.batchSize.toNat ∧
      incs.sum = job.table.rowCount := by
  obtain ⟨incs, heq, hsum, hlen⟩ :=
    executeLoop_spec batchOk hok job.table.rowCount job.batchSize hB fuel 0
      le_rfl hR (by omega)
  refine ⟨incs, heq, ?_, ?_⟩
  · rw [hlen, show job.table.rowCount - 0 = job.table.rowCount by omega]
  · rw [hsum]; omega

/-- The spec scenario: a 1,050-row table copied with batch size 500. -/
def ordersJob : DataTransferJob :=
  { table :=
      { name := "orders", schema := "public", columns := [], primaryKeys := [],
        foreignKeys := [], indexes := [], rowCount := 1050 },
    batchSize := 500 }

/-- C2 witness: the 1,050-row / batch-500 scenario runs exactly 3 pages whose
increments sum to 1,050. -/
theorem c2_witness :
    ∃ incs : List Int,
      ordersJob.execute (fun _ _ => true) 1050 = some (incs, true) ∧
      incs.length = 3 ∧ incs.sum = 1050 := by
  obtain ⟨incs, h1, h2, h3⟩ :=
    c2_pages_and_progress ordersJob (fun _ _ => true) (fun _ _ => rfl)
      (by decide) (by decide) 1050 (by decide)
  exact ⟨incs, h1, by rw [h2]; decide, by rw [h3]; decide⟩

/-- With positive batch size and enough fuel the loop always finishes, for
every pattern of batch successes and failures. -/
theorem executeLoop_total (batchOk : Int → Int → Bool) (R B : Int) (hB : 0 < B) :
    ∀ (fuel : Nat) (offset : Int), 0 ≤ offset → offset ≤ R →
      (R - offset).toNat ≤ fuel →
      (executeLoop batchOk R B offset fuel).isSome = true := by
  intro fuel
  induction fuel with
  | zero =>
    intro offset h0 hle hf
    rw [executeLoop_stop _ _ _ _ _ (by omega)]; rfl
  | succ fuel ih =>
    intro offset h0 hle hf
    by_cases hlt : offset < R
    · have hlim : 1 ≤ pageLimit R B offset := by
        unfold pageLimit; split <;> omega
      have hlimle : offset + pageLimit R B offset ≤ R := by
        unfold pageLimit; split <;> omega
      by_cases hbk : batchOk offset (pageLimit R B offset) = true
      · have := ih (offset + pageLimit R B offset) (by omega) hlimle (by omega)
        obtain ⟨r, hr⟩ := Option.isSome_iff_exists.mp this
        show (executeLoop batchOk R B offset (fuel + 1)).isSome = true
        simp only [executeLoop, if_pos hlt, hbk, if_pos, hr]
        cases r with
        | mk incs ok => rfl
      · show (executeLoop batchOk R B offset (fuel + 1)).isSome = true
        simp only [executeLoop, if_pos hlt, hbk, if_neg]
        rfl
    · rw [executeLoop_stop _ _ _ _ _ hlt]; rfl

/-- C10: the offset loop of `DataTransferJob.execute` terminates for every
row count `R ≥ 0` whenever the batch size is at least 1 (any fuel of at
least `R` iterations suffices, whatever the outcome of each batch), and the
hypothesis `B ≥ 1` is required: with batch size 0 and one row the offset
never advances and no amount of fuel finishes the loop. -/
theorem c10_loop_termination :
    (∀ (job : DataTransferJob) (batchOk : Int → Int → Bool),
      0 ≤ job.table.rowCount → 1 ≤ job.batchSize →
      ∀ fuel : Nat, job.table.rowCount.toNat ≤ fuel →
        (job.execute batchOk fuel).isSome = true) ∧
    (∀ fuel : Nat, executeLoop (fun _ _ => true) 1 0 0 fuel = none) := by
  constructor
  · intro job batchOk hR hB fuel hfuel
    exact executeLoop_total batchOk job.table.rowCount job.batchSize
      (by omega) fuel 0 le_rfl hR (by omega)
  · intro fuel
    induction fuel with
    | zero => decide
    | succ fuel ih =>
      show executeLoop (fun _ _ => true) 1 0 0 (fuel + 1) = none
      simp only [executeLoop, pageLimit]
      norm_num
      rw [ih]

/-- A 7-row table with batch size 3. -/
def sevenRowJob : DataTransferJob :=
  { table :=
      { name := "t", schema := "public", columns := [], primaryKeys := [],
        foreignKeys := [], indexes := [], rowCount := 7 },
    batchSize := 3 }

/-- C10 witness: a 7-row table with batch size 3 finishes within 7
iterations even when every batch fails. -/
theorem c10_witness :
    (sevenRowJob.execute (fun _ _ => false) 7).isSome = true :=
  c10_loop_termination.1 sevenRowJob (fun _ _ => false)
    (by decide) (by decide) 7 (by decide)

/-! ## C3: cross-engine rejection -/

/-- C3: when the declared engine types differ, `NewService` fails with an
error naming both types, and no source or target connection event is
produced (the constructors only store the configs). -/
theorem c3_cross_engine_rejected (sourceConfig targetConfig : Config)
    (options : Options)
    (hne : sourceConfig.database.type ≠ targetConfig.database.type) :
    (NewService sourceConfig targetConfig options).1 =
      Except.error ("cross-engine transfers are not supported between " ++
        sourceConfig.database.type ++ " and " ++ targetConfig.database.type) ∧
    (NewService sourceConfig targetConfig options).2 = [] ∧
    ∃ pre mid post : String,
      ("cross-engine transfers are not supported between " ++
          sourceConfig.database.type ++ " and " ++ targetConfig.database.type) =
        pre ++ sourceConfig.database.type ++ mid ++
          targetConfig.database.type ++ post := by
  refine ⟨?_, ?_,
    ⟨"cross-engine transfers are not supported between ", " and ", "", ?_⟩⟩
  · simp [NewService, hne]
  · simp [NewService, hne]
  · simp

/-- A postgres-typed configuration. -/
def cfgPostgres : Config := { database := { type := "postgres" } }

/-- A mongo-typed configuration. -/
def cfgMongo : Config := { database := { type := "mongo" } }

/-- Default transfer options for concrete runs. -/
def optsDefault : Options :=
  { schemaOnly := false, dataOnly := false, parallelWorkers := 4, batchSize := 500 }

/-- C3 witness: a postgres-to-mongo request is rejected with the message
naming both types, with an empty connection trace. -/
theorem c3_witness :
    cfgPostgres.database.type ≠ cfgMongo.database.type ∧
    (NewService cfgPostgres cfgMongo optsDefault).1 =
      Except.error ("cross-engine transfers are not supported between " ++
        cfgPostgres.database.type ++ " and " ++ cfgMongo.database.type) ∧
    (NewService cfgPostgres cfgMongo optsDefault).2 = [] :=
  ⟨by decide,
    (c3_cross_engine_rejected cfgPostgres cfgMongo optsDefault (by decide)).1,
    (c3_cross_engine_rejected cfgPostgres cfgMongo optsDefault (by decide)).2.1⟩

/-! ## C7: job submission -/

/-- C7 counterexample: `SubmitJob` returns the `Execute`
result — submitting two jobs whose executions differ yields different
return values, so the job runs synchronously inside the submission call,
refuting the part of the claim that the job is not run in the submitting goroutine. -/
theorem c7_counterexample :
    (SubmitJob (NewWorkerPool 4 500) false false (0 : Nat)).1 =
      SubmitOutcome.ran 0 ∧
    (SubmitJob (NewWorkerPool 4 500) false false (1 : Nat)).1 =
      SubmitOutcome.ran 1 ∧
    (SubmitJob (NewWorkerPool 4 500) false false (0 : Nat)).1 ≠
      (SubmitJob (NewWorkerPool 4 500) false false (1 : Nat)).1 := by
  refine ⟨by decide, by decide, by decide⟩

/-- C7 amended: the intake channel is bounded at `2 × workers`; while it has
room, `SubmitJob` enqueues the job and then executes it synchronously in the
submitting goroutine, returning the result of the job itself; once the intake is
full (nothing ever dequeues), a submission returns the cancellation error
when the context is cancelled and otherwise stays blocked — so admission,
not a pool of `N` workers, is what bounds concurrency. -/
theorem c7_submit_executes_synchronously :
    (∀ workers batchSize : Nat,
      (NewWorkerPool workers batchSize).jobsCap = workers * 2) ∧
    (∀ (wp : WorkerPool) (r : Nat), wp.jobsLen < wp.jobsCap →
      SubmitJob wp false false r =
        (SubmitOutcome.ran r, { wp with jobsLen := wp.jobsLen + 1 })) ∧
    (∀ (wp : WorkerPool) (preferSend : Bool) (r : Nat),
      ¬ wp.jobsLen < wp.jobsCap →
      (SubmitJob wp true preferSend r).1 = SubmitOutcome.canceled) ∧
    (∀ (wp : WorkerPool) (r : Nat), ¬ wp.jobsLen < wp.jobsCap →
      (SubmitJob wp false false r).1 = SubmitOutcome.blocked) := by
  refine ⟨fun _ _ => rfl, ?_, ?_, ?_⟩
  · intro wp r h
    simp [SubmitJob, h]
  · intro wp preferSend r h
    simp [SubmitJob, h]
  · intro wp r h
    simp [SubmitJob, h]

/-- C7 witness: the amended behavior on a fresh two-worker pool (room in the
intake: the job runs and its result is returned) and on a full intake with a
cancelled context. -/
theorem c7_witness :
    SubmitJob (NewWorkerPool 2 500) false false (7 : Nat) =
      (SubmitOutcome.ran 7,
        { workers := 2, batchSize := 500, jobsCap := 4, jobsLen := 1 }) ∧
    (SubmitJob { workers := 2, batchSize := 500, jobsCap := 4, jobsLen := 4 }
        true false (7 : Nat)).1 = SubmitOutcome.canceled :=
  ⟨c7_submit_executes_synchronously.2.1 (NewWorkerPool 2 500) 7 (by decide),
    c7_submit_executes_synchronously.2.2.1
      { workers := 2, batchSize := 500, jobsCap := 4, jobsLen := 4 }
      false 7 (by decide)⟩

/-! ## C9: the per-page source query -/

/-- C9: for every table and page, the query built by the code coincides with
the query described by the spec — all columns selected, ordered by the
primary-key list when non-empty, else the first column when one exists, else
the constant 1, followed by the OFFSET and LIMIT of the page. -/
theorem c9_select_query_shape (t : Table) (offset limit : Int) :
    buildSelectQuery t offset limit = specSelectQuery t offset limit := by
  unfold buildSelectQuery specSelectQuery buildOrderByClause
  rcases hpk : t.primaryKeys with _ | ⟨p, ps⟩
  · rcases hc : t.columns with _ | ⟨c, cs⟩
    · simp [hpk, hc]
    · simp [hpk, hc]
  · simp [hpk]

/-! ## C4, C5, C6: orchestration of the two engines -/

/-- Recognizes `ExtractTables` events. -/
def isExtractEvent : Event → Bool
  | Event.extractTables _ => true
  | _ => false

/-- Recognizes job-submission events. -/
def isSubmitEvent : Event → Bool
  | Event.submitJob _ => true
  | _ => false

/-- Number of `ExtractTables` calls recorded in a trace. -/
def countExtracts (evs : List Event) : Nat := (evs.filter isExtractEvent).length

/-- A 5-row table named `alpha`. -/
def tableAlpha : Table :=
  { name := "alpha", schema := "public", columns := [], primaryKeys := [],
    foreignKeys := [], indexes := [], rowCount := 5 }

/-- A 3-row table named `beta`. -/
def tableBeta : Table :=
  { name := "beta", schema := "public", columns := [], primaryKeys := [],
    foreignKeys := [], indexes := [], rowCount := 3 }

/-- A source whose first extraction sees only `alpha` and whose second
extraction sees only `beta`; every other operation succeeds. -/
def wPgTwoExtracts : PgWorld :=
  { connectSource := Except.ok (), connectTarget := Except.ok (),
    extract := fun n => Except.ok (if n = 0 then [tableAlpha] else [tableBeta]),
    createTables := fun _ => Except.ok (),
    jobOk := fun _ => true }

/-- Options with both the schema-only and the data-only flag set. -/
def optsBoth : Options :=
  { schemaOnly := true, dataOnly := true, parallelWorkers := 4, batchSize := 500 }

/-- A one-collection mongo source on which every operation succeeds. -/
def wMongoFix : MongoWorld :=
  { listCollections := Except.ok ["users"],
    drop := fun _ => Except.ok (),
    listIndexes := fun _ => Except.ok [],
    createMany := fun _ _ => Except.ok (),
    find := fun _ => Except.ok [],
    insertMany := fun _ _ => Except.ok () }

/-- C4 counterexample: with both flags set the relational engine performs
neither the schema phase nor the data phase — the run succeeds having only
opened and closed the connections, so the claim that both phases are
performed ("normalized to a full transfer") is false. -/
theorem c4_counterexample :
    pgExecute wPgTwoExtracts optsBoth =
      PgRun.done (Except.ok ())
        [Event.info "Starting PostgreSQL transfer...", Event.connectSource,
          Event.connectTarget,
          Event.info "PostgreSQL transfer completed successfully."] ∧
    ¬ (Event.info "Transferring schema..."
          ∈ (pgExecute wPgTwoExtracts optsBoth).doneEvents ∧
       Event.info "Transferring data..."
          ∈ (pgExecute wPgTwoExtracts optsBoth).doneEvents) := by
  refine ⟨by decide, by decide⟩

/-- C4 amended: both flags set is not normalized to a full transfer; instead
all work is skipped. The relational engine connects and returns success
without running either phase, and the document-store engine performs no
per-collection work, logging a warning. -/
theorem c4_both_flags_skip_both_phases :
    (∀ (w : PgWorld) (options : Options),
      options.schemaOnly = true → options.dataOnly = true →
      w.connectSource = Except.ok () → w.connectTarget = Except.ok () →
      pgExecute w options =
        PgRun.done (Except.ok ())
          [Event.info "Starting PostgreSQL transfer...", Event.connectSource,
            Event.connectTarget,
            Event.info "PostgreSQL transfer completed successfully."]) ∧
    (∀ (w : MongoWorld) (sourceDBName targetDBName : String)
        (options : Options) (names : List String),
      options.schemaOnly = true → options.dataOnly = true →
      sourceDBName ≠ "" → targetDBName ≠ "" →
      w.listCollections = Except.ok names →
      mongoTransfer w sourceDBName targetDBName options =
        (Except.ok (),
          [Event.warn "Both schema-only and data-only flags are set to skip operations; nothing to do."])) := by
  constructor
  · intro w options h1 h2 hcs hct
    simp [pgExecute, pgConnect, hcs, hct, h1, h2]
  · intro w sourceDBName targetDBName options names h1 h2 hs ht hl
    simp [mongoTransfer, hs, ht, hl, h1, h2]

/-- C4 witness: the amended behavior on the concrete worlds. -/
theorem c4_witness :
    pgExecute wPgTwoExtracts optsBoth =
      PgRun.done (Except.ok ())
        [Event.info "Starting PostgreSQL transfer...", Event.connectSource,
          Event.connectTarget,
          Event.info "PostgreSQL transfer completed successfully."] ∧
    mongoTransfer wMongoFix "src" "dst" optsBoth =
      (Except.ok (),
        [Event.warn "Both schema-only and data-only flags are set to skip operations; nothing to do."]) :=
  ⟨c4_both_flags_skip_both_phases.1 wPgTwoExtracts optsBoth rfl rfl rfl rfl,
    c4_both_flags_skip_both_phases.2 wMongoFix "src" "dst" optsBoth ["users"]
      rfl rfl (by decide) (by decide) rfl⟩

/-- C5: a document-store transfer with both flags set performs no
per-collection index or document operation, logs the warning, and returns
success. -/
theorem c5_both_flags_warn_and_skip (w : MongoWorld)
    (sourceDBName targetDBName : String) (options : Options)
    (names : List String)
    (h1 : options.schemaOnly = true) (h2 : options.dataOnly = true)
    (hs : sourceDBName ≠ "") (ht : targetDBName ≠ "")
    (hl : w.listCollections = Except.ok names) :
    (mongoTransfer w sourceDBName targetDBName options).1 = Except.ok () ∧
    Event.warn "Both schema-only and data-only flags are set to skip operations; nothing to do."
      ∈ (mongoTransfer w sourceDBName targetDBName options).2 ∧
    ((mongoTransfer w sourceDBName targetDBName options).2.filter
      isPerCollectionOp) = [] := by
  have hrun : mongoTransfer w sourceDBName targetDBName options =
      (Except.ok (),
        [Event.warn "Both schema-only and data-only flags are set to skip operations; nothing to do."]) := by
    simp [mongoTransfer, hs, ht, hl, h1, h2]
  rw [hrun]
  refine ⟨rfl, by simp, by simp [isPerCollectionOp]⟩

/-- C5 witness: the concrete one-collection source with both flags set. -/
theorem c5_witness :
    (mongoTransfer wMongoFix "src" "dst" optsBoth).1 = Except.ok () ∧
    Event.warn "Both schema-only and data-only flags are set to skip operations; nothing to do."
      ∈ (mongoTransfer wMongoFix "src" "dst" optsBoth).2 ∧
    ((mongoTransfer wMongoFix "src" "dst" optsBoth).2.filter
      isPerCollectionOp) = [] :=
  c5_both_flags_warn_and_skip wMongoFix "src" "dst" optsBoth ["users"]
    rfl rfl (by decide) (by decide) rfl

/-- Job-submission traces contain no extraction events. -/
theorem jobEvents_no_extract (jobOk : Table → Bool) (jobs : List Table) :
    ((jobs.flatMap fun t =>
        Event.submitJob t.name ::
          (if jobOk t then []
           else [Event.errorLog ("Table transfer failed for " ++ t.name)])).filter
      isExtractEvent) = [] := by
  induction jobs with
  | nil => rfl
  | cons t rest ih =>
    by_cases h : jobOk t <;>
      simp [List.flatMap_cons, List.filter_append, h, isExtractEvent, ih]

/-- The submission events of the data phase are exactly one per planned job,
in order. -/
theorem jobEvents_submits (jobOk : Table → Bool) (jobs : List Table) :
    ((jobs.flatMap fun t =>
        Event.submitJob t.name ::
          (if jobOk t then []
           else [Event.errorLog ("Table transfer failed for " ++ t.name)])).filter
      isSubmitEvent) = jobs.map fun t => Event.submitJob t.name := by
  induction jobs with
  | nil => rfl
  | cons t rest ih =>
    by_cases h : jobOk t <;>
      simp [List.flatMap_cons, List.filter_append, h, isSubmitEvent, ih]

/-- C6 counterexample: a full transfer on a concrete world performs two
schema extractions, not one — and the two phases use different extraction
results: the creator receives the first extraction (`alpha`) while the batch
jobs are planned from the second (`beta`). -/
theorem c6_counterexample :
    (pgExecute wPgTwoExtracts optsDefault).doneResult = some (Except.ok ()) ∧
    countExtracts (pgExecute wPgTwoExtracts optsDefault).doneEvents = 2 ∧
    Event.createTables [tableAlpha]
      ∈ (pgExecute wPgTwoExtracts optsDefault).doneEvents ∧
    Event.submitJob "beta" ∈ (pgExecute wPgTwoExtracts optsDefault).doneEvents ∧
    Event.submitJob "alpha" ∉ (pgExecute wPgTwoExtracts optsDefault).doneEvents := by
  refine ⟨by decide, by decide, by decide, by decide, by decide⟩

/-- C6 amended: a full relational transfer performs exactly two schema
extractions — one in the schema phase, whose result feeds the Schema
Creator, and a second in the data phase, whose result alone determines the
batch jobs submitted (one per table with nonzero row count) — provided the
worker count is nonnegative and the jobs fit into the intake capacity
`2 × ParallelWorkers`; when the nonzero-row tables outnumber that capacity
the run never returns, deadlocked in `wg.Wait`. -/
theorem c6_full_transfer_extracts_twice :
    (∀ (w : PgWorld) (options : Options) (ts0 ts1 : List Table),
      options.dataOnly = false → options.schemaOnly = false →
      w.connectSource = Except.ok () → w.connectTarget = Except.ok () →
      w.extract 0 = Except.ok ts0 → w.createTables ts0 = Except.ok () →
      w.extract 1 = Except.ok ts1 →
      0 ≤ options.parallelWorkers →
      (ts1.filter fun t => t.rowCount ≠ 0).length ≤
        options.parallelWorkers.toNat * 2 →
      (pgExecute w options).doneResult = some (Except.ok ()) ∧
      countExtracts (pgExecute w options).doneEvents = 2 ∧
      Event.createTables ts0 ∈ (pgExecute w options).doneEvents ∧
      ((pgExecute w options).doneEvents.filter isSubmitEvent) =
        (ts1.filter fun t => t.rowCount ≠ 0).map fun t => Event.submitJob t.name) ∧
    (∀ (w : PgWorld) (options : Options) (ts0 ts1 : List Table),
      options.dataOnly = false → options.schemaOnly = false →
      w.connectSource = Except.ok () → w.connectTarget = Except.ok () →
      w.extract 0 = Except.ok ts0 → w.createTables ts0 = Except.ok () →
      w.extract 1 = Except.ok ts1 →
      0 ≤ options.parallelWorkers →
      options.parallelWorkers.toNat * 2 <
        (ts1.filter fun t => t.rowCount ≠ 0).length →
      pgExecute w options = PgRun.blocked) := by
  constructor
  · intro w options ts0 ts1 h1 h2 hcs hct he0 hc he1 hw hfit
    have hnneg : ¬ options.parallelWorkers < 0 := not_lt.mpr hw
    have hcap : ¬ options.parallelWorkers.toNat * 2 <
        (ts1.filter fun t => !decide (t.rowCount = 0)).length := by
      simpa [ne_eq, decide_not] using not_lt.mpr hfit
    have hrun : pgExecute w options =
        PgRun.done (Except.ok ())
          (Event.info "Starting PostgreSQL transfer..." ::
            [Event.connectSource, Event.connectTarget] ++
            [Event.info "Transferring schema...", Event.extractTables 0,
              Event.createTables ts0, Event.info "Schema transfer completed."] ++
            (Event.info "Transferring data..." :: Event.extractTables 1 ::
              ((ts1.filter fun t => t.rowCount ≠ 0).flatMap fun t =>
                Event.submitJob t.name ::
                  (if w.jobOk t then []
                   else [Event.errorLog ("Table transfer failed for " ++ t.name)])) ++
              [Event.info "Data transfer completed."]) ++
            [Event.info "PostgreSQL transfer completed successfully."]) := by
      simp [pgExecute, pgConnect, transferSchema, transferData, NewWorkerPool,
        hcs, hct, he0, hc, he1, h1, h2, hnneg, hcap]
    rw [hrun]
    refine ⟨rfl, ?_, ?_, ?_⟩
    · simp [PgRun.doneEvents, countExtracts, List.filter_append, isExtractEvent,
        jobEvents_no_extract]
    · simp [PgRun.doneEvents]
    · simp [PgRun.doneEvents, List.filter_append, isSubmitEvent, jobEvents_submits]
  · intro w options ts0 ts1 h1 h2 hcs hct he0 hc he1 hw hover
    have hnneg : ¬ options.parallelWorkers < 0 := not_lt.mpr hw
    have hcap : options.parallelWorkers.toNat * 2 <
        (ts1.filter fun t => !decide (t.rowCount = 0)).length := by
      simpa [ne_eq, decide_not] using hover
    simp [pgExecute, pgConnect, transferSchema, transferData, NewWorkerPool,
      hcs, hct, he0, hc, he1, h1, h2, hnneg, hcap]

/-- C6 witness: the completing half of the amended theorem on the concrete
two-extraction world (one nonzero-row job against an intake of capacity 8). -/
theorem c6_witness :
    (pgExecute wPgTwoExtracts optsDefault).doneResult = some (Except.ok ()) ∧
    countExtracts (pgExecute wPgTwoExtracts optsDefault).doneEvents = 2 ∧
    Event.createTables [tableAlpha]
      ∈ (pgExecute wPgTwoExtracts optsDefault).doneEvents ∧
    ((pgExecute wPgTwoExtracts optsDefault).doneEvents.filter isSubmitEvent) =
      (([tableBeta].filter fun t => t.rowCount ≠ 0).map
        fun t => Event.submitJob t.name) :=
  c6_full_transfer_extracts_twice.1 wPgTwoExtracts optsDefault
    [tableAlpha] [tableBeta] rfl rfl rfl rfl rfl rfl rfl (by decide) (by decide)

/-! ## C8: index replication -/

/-- The C8 claim as stated, for the listed index documents of one collection: the
`_id_` index is never among the created models, and every other source index
yields a model with the same name whose uniqueness, sparse, and TTL
(`expireAfterSeconds`) options are preserved. -/
def c8IndexClaim (docs : List IndexDoc) : Prop :=
  (∀ m ∈ cloneIndexModels docs, m.name ≠ "_id_") ∧
  ∀ d ∈ docs, d.name ≠ "_id_" →
    ∃ m ∈ cloneIndexModels docs,
      m.name = d.name ∧ m.keys = d.key ∧
      (m.unique = some true ↔ d.unique = true) ∧
      (m.sparse = some true ↔ d.sparse = true) ∧
      m.expireAfterSeconds = d.expireAfterSeconds

/-- A TTL index whose `expireAfterSeconds` is explicitly 0 (expire as soon
as the indexed date passes) — a legal source index. -/
def docTtlZero : IndexDoc :=
  { name := "session_ttl", key := [("lastSeen", 1)], unique := false,
    sparse := false, expireAfterSeconds := some 0 }

/-- C8 counterexample: for a source index with `expireAfterSeconds = 0`, the
created model carries no TTL option at all (the decoded `int32` is 0, which
the code treats as "absent"), so the TTL setting is not preserved and the
claim fails on this collection. -/
theorem c8_counterexample :
    ¬ c8IndexClaim [docTtlZero] ∧
    (cloneIndexModels [docTtlZero]).map (fun m => m.expireAfterSeconds) = [none] := by
  refine ⟨by unfold c8IndexClaim; decide, by decide⟩

/-- C8 amended: the `_id_` index is never created on the target; every other
source index is recreated (in order) with the same name and key
specification, its uniqueness and sparse flags preserved, and its TTL
preserved exactly when the decoded `expireAfterSeconds` is nonzero — an
index whose `expireAfterSeconds` field is 0 or absent is recreated without
any TTL option. -/
theorem c8_id_skipped_others_recreated (docs : List IndexDoc) :
    (∀ m ∈ cloneIndexModels docs, m.name ≠ "_id_") ∧
    (∀ d ∈ docs, d.name ≠ "_id_" → toIndexModel d ∈ cloneIndexModels docs) ∧
    (∀ m ∈ cloneIndexModels docs,
      ∃ d ∈ docs, d.name ≠ "_id_" ∧ m = toIndexModel d) ∧
    (∀ d : IndexDoc,
      (toIndexModel d).name = d.name ∧ (toIndexModel d).keys = d.key ∧
      ((toIndexModel d).unique = some true ↔ d.unique = true) ∧
      ((toIndexModel d).sparse = some true ↔ d.sparse = true) ∧
      (∀ k : Int, d.expireAfterSeconds = some k → k ≠ 0 →
        (toIndexModel d).expireAfterSeconds = some k) ∧
      (d.expireAfterSeconds.getD 0 = 0 →
        (toIndexModel d).expireAfterSeconds = none)) := by
  refine ⟨?_, ?_, ?_, ?_⟩
  · induction docs with
    | nil => intro m hm; cases hm
    | cons d rest ih =>
      intro m hm
      by_cases h : d.name = "_id_"
      · exact ih m (by simpa [cloneIndexModels, h] using hm)
      · rcases (by simpa [cloneIndexModels, h] using hm :
            m = toIndexModel d ∨ m ∈ cloneIndexModels rest) with h2 | h2
        · rw [h2]; simpa [toIndexModel] using h
        · exact ih m h2
  · induction docs with
    | nil => intro d hd; cases hd
    | cons d0 rest ih =>
      intro d hd hname
      rcases List.mem_cons.mp hd with heq | hmem
      · subst heq
        simp [cloneIndexModels, hname]
      · by_cases h : d0.name = "_id_"
        · simpa [cloneIndexModels, h] using ih d hmem hname
        · simp only [cloneIndexModels, if_neg h]
          exact List.mem_cons_of_mem _ (ih d hmem hname)
  · induction docs with
    | nil => intro m hm; cases hm
    | cons d rest ih =>
      intro m hm
      by_cases h : d.name = "_id_"
      · obtain ⟨d2, hd2, hn2, he2⟩ := ih m (by simpa [cloneIndexModels, h] using hm)
        exact ⟨d2, List.mem_cons_of_mem _ hd2, hn2, he2⟩
      · rcases (by simpa [cloneIndexModels, h] using hm :
            m = toIndexModel d ∨ m ∈ cloneIndexModels rest) with h2 | h2
        · exact ⟨d, List.mem_cons_self _ _, h, h2⟩
        · obtain ⟨d2, hd2, hn2, he2⟩ := ih m h2
          exact ⟨d2, List.mem_cons_of_mem _ hd2, hn2, he2⟩
  · intro d
    refine ⟨rfl, rfl, ?_, ?_, ?_, ?_⟩
    · cases hqu : d.unique <;> simp [toIndexModel, hqu]
    · cases hsp : d.sparse <;> simp [toIndexModel, hsp]
    · intro k hk hk0
      simp [toIndexModel, hk, hk0]
    · intro h0
      simp [toIndexModel, h0]

/-- The default identity index of a source collection. -/
def docIdIndex : IndexDoc :=
  { name := "_id_", key := [("_id", 1)], unique := false, sparse := false,
    expireAfterSeconds := none }

/-- A unique index on `email`, as in the spec scenario. -/
def docEmailUnique : IndexDoc :=
  { name := "email_unique", key := [("email", 1)], unique := true,
    sparse := false, expireAfterSeconds := none }

/-- C8 witness: cloning a collection with indexes `_id_` and `email_unique`
creates `email_unique` (with its options) and nothing named `_id_`. -/
theorem c8_witness :
    docEmailUnique.name ≠ "_id_" ∧
    toIndexModel docEmailUnique ∈ cloneIndexModels [docIdIndex, docEmailUnique] ∧
    (∀ m ∈ cloneIndexModels [docIdIndex, docEmailUnique], m.name ≠ "_id_") :=
  ⟨by decide,
    (c8_id_skipped_others_recreated [docIdIndex, docEmailUnique]).2.1
      docEmailUnique (by decide) (by decide),
    (c8_id_skipped_others_recreated [docIdIndex, docEmailUnique]).1⟩

end DBRTS
